import Mathlib

/-!
Shallow embedding of the HabitQuest background notification service
(`src-tauri/src/background_notifications.rs` and `src-tauri/src/lib.rs`).

Local timestamps are modelled as `Nat` seconds since a fixed local epoch:
`hourOf`, `minuteOf` and `dateOf` recover the local wall-clock hour, minute
and calendar date of a timestamp, and `hoursBetween now last` models
`(now - last).num_hours()` from chrono (whole hours, truncated toward zero).
`u32` fields are modelled as `Nat`; no operation below can overflow a `u32`
(the daily counter is only ever incremented while strictly below
`max_reminders_per_day`, itself a `u32`).

The `HashMap<String, DateTime<Local>>` of habit completions is modelled as an
association list with `HashMap`-style insert (replace the existing key or
append), `hmInsert` / `hmLookup`.
-/

def hourOf (t : Nat) : Nat := t / 3600 % 24

def minuteOf (t : Nat) : Nat := t / 60 % 60

def dateOf (t : Nat) : Nat := t / 86400

def hoursBetween (now last : Nat) : Int := ((now : Int) - (last : Int)).tdiv 3600

def hmLookup (m : List (String × Nat)) (k : String) : Option Nat :=
  match m with
  | [] => none
  | p :: rest => if p.1 = k then some p.2 else hmLookup rest k

def hmInsert (m : List (String × Nat)) (k : String) (v : Nat) : List (String × Nat) :=
  match m with
  | [] => [(k, v)]
  | p :: rest => if p.1 = k then (k, v) :: rest else p :: hmInsert rest k v

/-- `NotificationConfig`, `background_notifications.rs` lines 19-32. -/
structure NotificationConfig where
  enabled : Bool
  streak_reminders : Bool
  random_reminders : Bool
  reminder_start_hour : Nat
  reminder_end_hour : Nat
  max_reminders_per_day : Nat
  streak_warning_threshold : Nat
  sound_enabled : Bool
  intelligent_timing : Bool
  adaptive_frequency : Bool
  streak_protection_hours : List Nat
deriving DecidableEq, Repr

/-- `impl Default for NotificationConfig`, lines 34-50. -/
def NotificationConfig.defaultConfig : NotificationConfig where
  enabled := true
  streak_reminders := true
  random_reminders := true
  reminder_start_hour := 8
  reminder_end_hour := 22
  max_reminders_per_day := 2
  streak_warning_threshold := 3
  sound_enabled := false
  intelligent_timing := true
  adaptive_frequency := true
  streak_protection_hours := [12, 18, 20]

/-- `ActivityData`, `background_notifications.rs` lines 52-59. -/
structure ActivityData where
  last_activity : Nat
  daily_sessions : List Nat
  habit_completions : List (String × Nat)
  notifications_sent_today : Nat
  last_notification_date : Option Nat
deriving DecidableEq, Repr

/-- `impl Default for ActivityData`, lines 61-71 (`Local::now()` becomes the
`now` argument). -/
def ActivityData.defaultData (now : Nat) : ActivityData where
  last_activity := now
  daily_sessions := []
  habit_completions := []
  notifications_sent_today := 0
  last_notification_date := none

/-- Lines 115-117: `last_notification_date.map_or(true, |last|
last.date_naive() != now.date_naive())`. -/
def isNewDay (act : ActivityData) (now : Nat) : Bool :=
  match act.last_notification_date with
  | none => true
  | some last => decide (dateOf last ≠ dateOf now)

/-- Lines 119-122: on a new day, reset the counter and stamp the date. -/
def afterRollover (act : ActivityData) (now : Nat) : ActivityData :=
  if isNewDay act now then
    { act with notifications_sent_today := 0, last_notification_date := some now }
  else act

/-- One iteration of the decision loop inside
`BackgroundNotificationService::start_background_service`, lines 98-137.
Returns the updated `ActivityData` together with `should_send_notification`.
The three `continue` statements become the `(act, false)` early results. -/
def schedulerTick (cfg : NotificationConfig) (act : ActivityData) (now : Nat) :
    ActivityData × Bool :=
  if cfg.enabled = false then (act, false)
  else if hourOf now < cfg.reminder_start_hour ∨ cfg.reminder_end_hour < hourOf now then
    (act, false)
  else
    let act1 := afterRollover act now
    if cfg.max_reminders_per_day ≤ act1.notifications_sent_today then (act1, false)
    else if 12 ≤ hoursBetween now act1.last_activity then
      ({ act1 with notifications_sent_today := act1.notifications_sent_today + 1 }, true)
    else (act1, false)

/-- Local hour inside the inclusive `[reminder_start_hour, reminder_end_hour]`
window, the negation of the guard on line 110. -/
def inActiveHours (cfg : NotificationConfig) (now : Nat) : Bool :=
  decide (cfg.reminder_start_hour ≤ hourOf now ∧ hourOf now ≤ cfg.reminder_end_hour)

/-- Ticks that reach line 119 so that the rollover mutation can happen:
enabled, inside active hours, and the local date changed (or was unset). -/
def rolloverApplies (cfg : NotificationConfig) (act : ActivityData) (now : Nat) : Bool :=
  cfg.enabled && inActiveHours cfg now && isNewDay act now

/-- A sequence of scheduler ticks at the given times; the `Bool` is whether
any tick in the sequence decided to send a notification. -/
def runTicks (cfg : NotificationConfig) (act : ActivityData) :
    List Nat → ActivityData × Bool
  | [] => (act, false)
  | t :: ts =>
      let r := schedulerTick cfg act t
      let rest := runTicks cfg r.1 ts
      (rest.1, r.2 || rest.2)

/-- `BackgroundNotificationService::record_activity`, lines 168-181, acting on
the in-memory `ActivityData` (`Local::now()` becomes `now`): set
`last_activity`, push `now`, then `retain` sessions with
`(now - session).num_hours() <= 24`. -/
def record_activity (act : ActivityData) (now : Nat) : ActivityData :=
  let pushed :=
    { act with last_activity := now, daily_sessions := act.daily_sessions ++ [now] }
  { pushed with
      daily_sessions := pushed.daily_sessions.filter (fun s => hoursBetween now s ≤ 24) }

/-- `record_activity` called once per time in `ts`, in order. -/
def recordMany (act : ActivityData) (ts : List Nat) : ActivityData :=
  ts.foldl record_activity act

/-- `BackgroundNotificationService::record_habit_completion`, lines 183-189,
acting on the in-memory `ActivityData`. -/
def record_habit_completion (act : ActivityData) (habit_id : String) (now : Nat) :
    ActivityData :=
  { act with habit_completions := hmInsert act.habit_completions habit_id now }

/-- The whole service: the two in-memory records plus the contents of the two
persisted JSON documents (`none` = file absent). The tick loop of
`start_background_service` never calls `save_activity_to_file` or
`save_config_to_file`, so `serviceTick` leaves the stored components alone. -/
structure ServiceState where
  config : NotificationConfig
  activity : ActivityData
  storedConfig : Option NotificationConfig
  storedActivity : Option ActivityData
deriving DecidableEq, Repr

/-- One iteration of the background loop at the service level (lines 94-142):
run the decision on the in-memory records; the notification dispatch
(line 140) does not touch any state and its error is discarded. -/
def serviceTick (st : ServiceState) (now : Nat) : ServiceState × Bool :=
  let r := schedulerTick st.config st.activity now
  ({ st with activity := r.1 }, r.2)

/-- `BackgroundNotificationService::update_config`, lines 160-166: replace the
in-memory config, then `let _ = self.save_config_to_file(&config)` — the save
result is discarded. `persistOk` models whether the file write succeeds. -/
def update_config (st : ServiceState) (new_config : NotificationConfig)
    (persistOk : Bool) : ServiceState :=
  { st with
      config := new_config
      storedConfig := if persistOk then some new_config else st.storedConfig }

/-- Tauri command `update_notification_config`, lines 267-278: `Err` only when
the service is not in the app state; otherwise calls `update_config` and
returns `Ok(())` unconditionally. -/
def update_notification_config (service : Option ServiceState)
    (cfg : NotificationConfig) (persistOk : Bool) :
    Option ServiceState × Except String Unit :=
  match service with
  | some st => (some (update_config st cfg persistOk), Except.ok ())
  | none => (none, Except.error "Background notification service not initialized")

/-- `should_send_streak_protection_reminder`, `lib.rs` lines 130-154. The Rust
function takes only the app handle (used for a log line) and the current local
time; it reads no activity state, so the model is a function of `now` alone. -/
def should_send_streak_protection_reminder (now : Nat) : Bool :=
  if hourOf now < 8 ∨ 22 < hourOf now then false
  else if hourOf now = 18 ∧ minuteOf now < 5 then true
  else false

/-!
JSON model of the persistence adapter (`save_config_to_file`,
`save_activity_to_file`, `load_from_files`, lines 191-242). Serialization is
modelled at the JSON value level, following serde's derived encoding of the
two structs: a struct becomes an object keyed by its snake_case field names, a
`Vec` an array, a `HashMap<String, _>` an object, an `Option` either `null` or
the value. A `DateTime<Local>` leaf is represented by its timestamp value (the
chrono text form is an injective representation of the instant, which is all
the round trip uses). The decoder looks fields up by name, as serde does.
-/

inductive Json where
  | null : Json
  | bool : Bool → Json
  | num : Int → Json
  | str : String → Json
  | arr : List Json → Json
  | obj : List (String × Json) → Json

def numJson (n : Nat) : Json := Json.num n

def Json.asBool : Json → Option Bool
  | .bool b => some b
  | _ => none

def Json.asNat : Json → Option Nat
  | .num n => if 0 ≤ n then some n.toNat else none
  | _ => none

def decodeNats : List Json → Option (List Nat)
  | [] => some []
  | j :: js => do
      let n ← j.asNat
      let ns ← decodeNats js
      pure (n :: ns)

def Json.asNatList : Json → Option (List Nat)
  | .arr js => decodeNats js
  | _ => none

def decodeEntries : List (String × Json) → Option (List (String × Nat))
  | [] => some []
  | (k, j) :: rest => do
      let v ← j.asNat
      let vs ← decodeEntries rest
      pure ((k, v) :: vs)

def Json.asNatMap : Json → Option (List (String × Nat))
  | .obj fs => decodeEntries fs
  | _ => none

def encOptNat : Option Nat → Json
  | none => Json.null
  | some t => numJson t

def Json.asOptNat : Json → Option (Option Nat)
  | .null => some none
  | j => j.asNat.map some

def jLookup (fields : List (String × Json)) (k : String) : Option Json :=
  match fields with
  | [] => none
  | p :: rest => if p.1 = k then some p.2 else jLookup rest k

/-- Serde-derived serialization of `NotificationConfig` (lines 19-32), at the
JSON value level. -/
def NotificationConfig.toJson (c : NotificationConfig) : Json :=
  Json.obj
    [ ("enabled", Json.bool c.enabled)
    , ("streak_reminders", Json.bool c.streak_reminders)
    , ("random_reminders", Json.bool c.random_reminders)
    , ("reminder_start_hour", numJson c.reminder_start_hour)
    , ("reminder_end_hour", numJson c.reminder_end_hour)
    , ("max_reminders_per_day", numJson c.max_reminders_per_day)
    , ("streak_warning_threshold", numJson c.streak_warning_threshold)
    , ("sound_enabled", Json.bool c.sound_enabled)
    , ("intelligent_timing", Json.bool c.intelligent_timing)
    , ("adaptive_frequency", Json.bool c.adaptive_frequency)
    , ("streak_protection_hours", Json.arr (c.streak_protection_hours.map numJson)) ]

/-- Serde-derived deserialization of `NotificationConfig`: look each field up
by name and check its type. -/
def NotificationConfig.fromJson : Json → Option NotificationConfig
  | Json.obj fields => do
      let enabled ← (jLookup fields "enabled").bind Json.asBool
      let streak_reminders ← (jLookup fields "streak_reminders").bind Json.asBool
      let random_reminders ← (jLookup fields "random_reminders").bind Json.asBool
      let reminder_start_hour ← (jLookup fields "reminder_start_hour").bind Json.asNat
      let reminder_end_hour ← (jLookup fields "reminder_end_hour").bind Json.asNat
      let max_reminders_per_day ← (jLookup fields "max_reminders_per_day").bind Json.asNat
      let streak_warning_threshold ←
        (jLookup fields "streak_warning_threshold").bind Json.asNat
      let sound_enabled ← (jLookup fields "sound_enabled").bind Json.asBool
      let intelligent_timing ← (jLookup fields "intelligent_timing").bind Json.asBool
      let adaptive_frequency ← (jLookup fields "adaptive_frequency").bind Json.asBool
      let streak_protection_hours ←
        (jLookup fields "streak_protection_hours").bind Json.asNatList
      pure
        { enabled := enabled
          streak_reminders := streak_reminders
          random_reminders := random_reminders
          reminder_start_hour := reminder_start_hour
          reminder_end_hour := reminder_end_hour
          max_reminders_per_day := max_reminders_per_day
          streak_warning_threshold := streak_warning_threshold
          sound_enabled := sound_enabled
          intelligent_timing := intelligent_timing
          adaptive_frequency := adaptive_frequency
          streak_protection_hours := streak_protection_hours }
  | _ => none

/-- Serde-derived serialization of `ActivityData` (lines 52-59), at the JSON
value level. -/
def ActivityData.toJson (a : ActivityData) : Json :=
  Json.obj
    [ ("last_activity", numJson a.last_activity)
    , ("daily_sessions", Json.arr (a.daily_sessions.map numJson))
    , ("habit_completions",
        Json.obj (a.habit_completions.map (fun p => (p.1, numJson p.2))))
    , ("notifications_sent_today", numJson a.notifications_sent_today)
    , ("last_notification_date", encOptNat a.last_notification_date) ]

/-- Serde-derived deserialization of `ActivityData`. -/
def ActivityData.fromJson : Json → Option ActivityData
  | Json.obj fields => do
      let last_activity ← (jLookup fields "last_activity").bind Json.asNat
      let daily_sessions ← (jLookup fields "daily_sessions").bind Json.asNatList
      let habit_completions ← (jLookup fields "habit_completions").bind Json.asNatMap
      let notifications_sent_today ←
        (jLookup fields "notifications_sent_today").bind Json.asNat
      let last_notification_date ←
        (jLookup fields "last_notification_date").bind Json.asOptNat
      pure
        { last_activity := last_activity
          daily_sessions := daily_sessions
          habit_completions := habit_completions
          notifications_sent_today := notifications_sent_today
          last_notification_date := last_notification_date }
  | _ => none

/-!
Concrete states used by the scenario theorems, witnesses and counterexamples.
Timestamps: day `d` hour `h` minute `m` is `86400 * d + 3600 * h + 60 * m`.
-/

def cfgDisabled : NotificationConfig :=
  { NotificationConfig.defaultConfig with enabled := false }

/-- Counter at 5, last notification stamped on day 0 at 12:00. -/
def actNewDayEarly : ActivityData where
  last_activity := 0
  daily_sessions := []
  habit_completions := []
  notifications_sent_today := 5
  last_notification_date := some 43200

/-- Fresh counter, last notification stamped at day 0, 00:00. -/
def actFresh : ActivityData where
  last_activity := 0
  daily_sessions := []
  habit_completions := []
  notifications_sent_today := 0
  last_notification_date := some 0

/-- A service whose persisted documents agree with the in-memory records. -/
def stMidDay : ServiceState where
  config := NotificationConfig.defaultConfig
  activity := actFresh
  storedConfig := some NotificationConfig.defaultConfig
  storedActivity := some actFresh

/-- Daily quota exhausted (counter = max = 2) on day 0. -/
def actQuotaFull : ActivityData where
  last_activity := 0
  daily_sessions := []
  habit_completions := []
  notifications_sent_today := 2
  last_notification_date := some 0

/-- Last activity 13 hours before day 0, 14:00; counter 0, stamped today. -/
def actStale13h : ActivityData where
  last_activity := 3600
  daily_sessions := []
  habit_completions := []
  notifications_sent_today := 0
  last_notification_date := some 0

/-- One `record_activity` call at time 0 starting from the defaults. -/
def actOneSession : ActivityData := record_activity (ActivityData.defaultData 0) 0

/-- One habit completion already recorded. -/
def actHC : ActivityData where
  last_activity := 0
  daily_sessions := []
  habit_completions := [("water", 100)]
  notifications_sent_today := 0
  last_notification_date := none

/-!
Helper lemmas about the scheduler, the activity tracker, the completion map
and the JSON codec.
-/

theorem schedulerTick_cases (cfg : NotificationConfig) (act : ActivityData) (now : Nat) :
    schedulerTick cfg act now =
      (if cfg.enabled = false then (act, false)
      else if hourOf now < cfg.reminder_start_hour ∨ cfg.reminder_end_hour < hourOf now then
        (act, false)
      else if cfg.max_reminders_per_day ≤ (afterRollover act now).notifications_sent_today then
        (afterRollover act now, false)
      else if 12 ≤ hoursBetween now (afterRollover act now).last_activity then
        ({ afterRollover act now with
            notifications_sent_today := (afterRollover act now).notifications_sent_today + 1 },
          true)
      else (afterRollover act now, false)) := rfl

theorem afterRollover_last_activity (act : ActivityData) (now : Nat) :
    (afterRollover act now).last_activity = act.last_activity := by
  unfold afterRollover; split <;> rfl

theorem afterRollover_of_new (act : ActivityData) (now : Nat) (h : isNewDay act now = true) :
    afterRollover act now =
      { act with notifications_sent_today := 0, last_notification_date := some now } := by
  simp [afterRollover, h]

theorem afterRollover_of_old (act : ActivityData) (now : Nat) (h : isNewDay act now = false) :
    afterRollover act now = act := by
  simp [afterRollover, h]

theorem tick_skip_same_day (cfg : NotificationConfig) (act : ActivityData) (now d : Nat)
    (h1 : act.last_notification_date = some d) (h2 : dateOf now = dateOf d)
    (h3 : cfg.max_reminders_per_day ≤ act.notifications_sent_today) :
    schedulerTick cfg act now = (act, false) := by
  have hnd : isNewDay act now = false := by simp [isNewDay, h1, h2]
  rw [schedulerTick_cases, afterRollover_of_old act now hnd]
  simp [h3]

theorem hoursBetween_self (now : Nat) : hoursBetween now now = 0 := by
  simp [hoursBetween]

theorem hoursBetween_le_of_sub_le (now s : Nat) (h : (now : Int) - s ≤ 86400) :
    hoursBetween now s ≤ 24 := by
  unfold hoursBetween
  rcases le_or_lt 0 ((now : Int) - s) with hx | hx
  · rw [Int.tdiv_eq_ediv hx (by norm_num)]
    omega
  · have hle : ((now : Int) - s).tdiv 3600 ≤ 0 := by
      have hn := Int.tdiv_nonneg (a := -((now : Int) - s)) (b := 3600) (by omega) (by norm_num)
      rw [Int.neg_tdiv] at hn
      omega
    omega

theorem tick_notifies_iff (cfg : NotificationConfig) (act : ActivityData) (now : Nat)
    (h1 : cfg.enabled = true) (h2 : inActiveHours cfg now = true)
    (h3 : (afterRollover act now).notifications_sent_today < cfg.max_reminders_per_day) :
    ((schedulerTick cfg act now).2 = true ↔ 12 ≤ hoursBetween now act.last_activity) ∧
    ((schedulerTick cfg act now).2 = true →
      (schedulerTick cfg act now).1.notifications_sent_today =
        (afterRollover act now).notifications_sent_today + 1) := by
  have h2' : cfg.reminder_start_hour ≤ hourOf now ∧ hourOf now ≤ cfg.reminder_end_hour := by
    simpa [inActiveHours] using h2
  have hng : ¬(hourOf now < cfg.reminder_start_hour ∨ cfg.reminder_end_hour < hourOf now) := by
    omega
  have hne : ¬(cfg.enabled = false) := by simp [h1]
  have hnm : ¬(cfg.max_reminders_per_day ≤ (afterRollover act now).notifications_sent_today) := by
    omega
  rw [schedulerTick_cases]
  simp only [if_neg hne, if_neg hng, if_neg hnm, afterRollover_last_activity]
  by_cases h5 : 12 ≤ hoursBetween now act.last_activity <;> simp [h5]

theorem record_activity_mem (act : ActivityData) (now s : Nat) :
    s ∈ (record_activity act now).daily_sessions ↔
      (s ∈ act.daily_sessions ∨ s = now) ∧ hoursBetween now s ≤ 24 := by
  simp [record_activity, List.mem_filter, List.mem_append]
  tauto

theorem record_activity_sessions_eq (act : ActivityData) (now : Nat)
    (h : ∀ s ∈ act.daily_sessions, hoursBetween now s ≤ 24) :
    (record_activity act now).daily_sessions = act.daily_sessions ++ [now] := by
  simp only [record_activity]
  rw [List.filter_eq_self.mpr]
  intro a ha
  rcases List.mem_append.mp ha with ha | ha
  · simpa using h a ha
  · simp at ha
    simp [ha, hoursBetween_self]

theorem recordMany_sessions (ts : List Nat) : ∀ (act : ActivityData),
    (∀ t ∈ ts, ∀ s ∈ act.daily_sessions ++ ts, (t : Int) - (s : Int) ≤ 86400) →
    (recordMany act ts).daily_sessions = act.daily_sessions ++ ts := by
  induction ts with
  | nil => intro act _; simp [recordMany]
  | cons t ts ih =>
      intro act h
      have hsess : (record_activity act t).daily_sessions = act.daily_sessions ++ [t] := by
        apply record_activity_sessions_eq
        intro s hs
        exact hoursBetween_le_of_sub_le t s (h t (by simp) s (by simp [hs]))
      have hstep : recordMany act (t :: ts) = recordMany (record_activity act t) ts := rfl
      rw [hstep, ih]
      · rw [hsess]
        simp
      · intro t' ht' s hs
        apply h t' (by simp [ht'])
        rw [hsess] at hs
        simp at hs ⊢
        tauto

theorem hmLookup_insert_self (m : List (String × Nat)) (k : String) (v : Nat) :
    hmLookup (hmInsert m k v) k = some v := by
  induction m with
  | nil => simp [hmInsert, hmLookup]
  | cons p rest ih =>
      by_cases h : p.1 = k
      · simp [hmInsert, h, hmLookup]
      · simp [hmInsert, h, hmLookup, ih]

theorem hmLookup_insert_ne (m : List (String × Nat)) (k : String) (v : Nat)
    (k' : String) (hk : k' ≠ k) : hmLookup (hmInsert m k v) k' = hmLookup m k' := by
  have hkk : ¬(k = k') := fun hh => hk hh.symm
  induction m with
  | nil => simp [hmInsert, hmLookup, hkk]
  | cons p rest ih =>
      by_cases h : p.1 = k
      · simp [hmInsert, h, hmLookup, hkk]
      · by_cases h2 : p.1 = k'
        · simp [hmInsert, h, hmLookup, h2, hk]
        · simp [hmInsert, h, hmLookup, h2, ih]

theorem asNat_numJson (n : Nat) : (numJson n).asNat = some n := by
  simp [numJson, Json.asNat]

theorem decodeNats_map (l : List Nat) : decodeNats (l.map numJson) = some l := by
  induction l with
  | nil => rfl
  | cons a l ih => simp [decodeNats, asNat_numJson, ih]

theorem decodeEntries_map (m : List (String × Nat)) :
    decodeEntries (m.map (fun p => (p.1, numJson p.2))) = some m := by
  induction m with
  | nil => rfl
  | cons p m ih => simp [decodeEntries, asNat_numJson, ih]

theorem asOptNat_enc (o : Option Nat) : (encOptNat o).asOptNat = some o := by
  cases o <;> simp [encOptNat, Json.asOptNat, numJson, Json.asNat]

theorem config_roundtrip (c : NotificationConfig) :
    NotificationConfig.fromJson (NotificationConfig.toJson c) = some c := by
  simp [NotificationConfig.toJson, NotificationConfig.fromJson, jLookup,
    Json.asBool, asNat_numJson, Json.asNatList, decodeNats_map]

theorem activity_roundtrip (a : ActivityData) :
    ActivityData.fromJson (ActivityData.toJson a) = some a := by
  simp [ActivityData.toJson, ActivityData.fromJson, jLookup,
    Json.asNatList, Json.asNatMap, decodeNats_map, decodeEntries_map,
    asOptNat_enc, asNat_numJson]

/-!
Claim theorems.
-/

/-- C1 counterexample: on day 1 at 07:00 (outside the default active hours)
the local date differs from `last_notification_date`'s date, yet the tick
leaves the counter at 5 and does not restamp `last_notification_date`, so the
counter is not reset on the first tick whose local date differs. -/
theorem C1_counterexample :
    isNewDay actNewDayEarly 111600 = true ∧
    hourOf 111600 = 7 ∧
    ActivityData.notifications_sent_today
      (schedulerTick NotificationConfig.defaultConfig actNewDayEarly 111600).1 = 5 ∧
    ActivityData.last_notification_date
      (schedulerTick NotificationConfig.defaultConfig actNewDayEarly 111600).1 =
        some 43200 := by
  decide

/-- C1 (amended): `notifications_sent_today` is reset to 0 (and
`last_notification_date` set to `now`) exactly on ticks that pass the enabled
and active-hours guards and whose local date differs from
`last_notification_date`'s date (or it is unset) — `rolloverApplies`; on every
other tick the counter is not reset (it only grows by the tick's own
increment) and `last_notification_date` is unchanged. -/
theorem C1_rollover_characterization (cfg : NotificationConfig) (act : ActivityData)
    (now : Nat) :
    ((schedulerTick cfg act now).1.notifications_sent_today,
      (schedulerTick cfg act now).1.last_notification_date) =
    (if rolloverApplies cfg act now then
      ((if (schedulerTick cfg act now).2 then 1 else 0), some now)
    else
      (act.notifications_sent_today + (if (schedulerTick cfg act now).2 then 1 else 0),
        act.last_notification_date)) := by
  by_cases h1 : cfg.enabled = false
  · simp [schedulerTick, rolloverApplies, h1]
  by_cases h2 : hourOf now < cfg.reminder_start_hour ∨ cfg.reminder_end_hour < hourOf now
  · have hih : inActiveHours cfg now = false := by
      simp only [inActiveHours, decide_eq_false_iff_not]
      omega
    rw [schedulerTick_cases]
    simp [h1, h2, rolloverApplies, hih]
  · have hih : inActiveHours cfg now = true := by
      simp only [inActiveHours, decide_eq_true_eq]
      omega
    have hra : rolloverApplies cfg act now = isNewDay act now := by
      cases he : cfg.enabled
      · simp [he] at h1
      · simp [rolloverApplies, he, hih]
    by_cases h3 : isNewDay act now = true
    · rw [schedulerTick_cases, afterRollover_of_new act now h3]
      simp [h1, h2, hra, h3]
      by_cases h4 : cfg.max_reminders_per_day = 0 <;>
        by_cases h5 : 12 ≤ hoursBetween now act.last_activity <;>
          simp [h4, h5]
    · rw [schedulerTick_cases,
        afterRollover_of_old act now (Bool.not_eq_true _ ▸ h3)]
      simp [h1, h2, hra, h3]
      by_cases h4 : cfg.max_reminders_per_day ≤ act.notifications_sent_today <;>
        by_cases h5 : 12 ≤ hoursBetween now act.last_activity <;>
          simp [h4, h5]

/-- C2 counterexample: a tick on day 1 at 14:00 performs the date rollover and
the step-5 increment (the counter becomes 1 and the tick decides to notify),
yet the persisted activity document still holds the old record — nothing was
persisted before the tick completed. -/
theorem C2_counterexample :
    (serviceTick stMidDay 136800).1.activity.notifications_sent_today = 1 ∧
    (serviceTick stMidDay 136800).2 = true ∧
    (serviceTick stMidDay 136800).1.storedActivity = some actFresh ∧
    (serviceTick stMidDay 136800).1.storedActivity ≠
      some (serviceTick stMidDay 136800).1.activity := by
  decide

/-- C2 (amended): no scheduler tick persists anything — the background loop
never writes either document, so the step-5 increment and the step-3 rollover
exist only in memory and a process restart mid-day resumes from the last
counter persisted by a facade call, not from the current one. -/
theorem C2_tick_never_persists (st : ServiceState) (now : Nat) :
    (serviceTick st now).1.storedActivity = st.storedActivity ∧
    (serviceTick st now).1.storedConfig = st.storedConfig :=
  ⟨rfl, rfl⟩

/-- C3: once `notifications_sent_today = max_reminders_per_day`, any sequence
of ticks whose local date equals the date of `last_notification_date` decides
to notify on none of its ticks and leaves the activity record unchanged: a
notification can only fire again after a tick on a different local date. -/
theorem C3_quota_blocks_until_rollover (cfg : NotificationConfig) (act : ActivityData)
    (d : Nat) (ts : List Nat) (h1 : act.last_notification_date = some d)
    (h2 : act.notifications_sent_today = cfg.max_reminders_per_day)
    (h3 : ∀ t ∈ ts, dateOf t = dateOf d) :
    runTicks cfg act ts = (act, false) := by
  induction ts with
  | nil => rfl
  | cons t ts ih =>
      have hskip : schedulerTick cfg act t = (act, false) :=
        tick_skip_same_day cfg act t d h1 (h3 t (by simp)) (le_of_eq h2.symm)
      have hrest : runTicks cfg act ts = (act, false) :=
        ih (fun t ht => h3 t (by simp [ht]))
      simp [runTicks, hskip, hrest]

/-- C3 witness: quota 2 of 2 used on day 0; ticks at 14:00 and 15:00 of day 0
skip. -/
theorem C3_witness :
    actQuotaFull.last_notification_date = some 0 ∧
    actQuotaFull.notifications_sent_today =
      NotificationConfig.defaultConfig.max_reminders_per_day ∧
    runTicks NotificationConfig.defaultConfig actQuotaFull [50400, 54000] =
      (actQuotaFull, false) :=
  ⟨rfl, by decide,
    C3_quota_blocks_until_rollover NotificationConfig.defaultConfig actQuotaFull 0
      [50400, 54000] rfl (by decide) (by decide)⟩

/-- C4 counterexample: one `record_activity` call at time 0, a further call
88200 s (24.5 h, hence `24 or more hours`) later: the prior entry at 0 is
older than the 24-hour cutoff (88200 > 86400) but is NOT removed, because the
retain condition `num_hours(now - s) <= 24` keeps every entry younger than 25
whole hours. -/
theorem C4_counterexample :
    actOneSession.daily_sessions = [0] ∧
    86400 < 88200 - 0 ∧
    (record_activity actOneSession 88200).daily_sessions = [0, 88200] := by
  decide

/-- C4 (amended): after N `record_activity` calls whose times pairwise differ
by at most 24 hours, starting from an empty session list, `daily_sessions`
holds exactly those N call times; and after any call at `now` the surviving
entries are exactly the prior entries and `now` itself whose whole-hour age
`hoursBetween now s` is at most 24 — so a later call removes exactly the
entries aged 25 whole hours or more, not all entries older than 24 hours. -/
theorem C4_prune_characterization :
    (∀ (act : ActivityData) (ts : List Nat),
      act.daily_sessions = [] →
      (∀ t ∈ ts, ∀ s ∈ ts, (t : Int) - (s : Int) ≤ 86400) →
      (recordMany act ts).daily_sessions = ts) ∧
    (∀ (act : ActivityData) (now s : Nat),
      s ∈ (record_activity act now).daily_sessions ↔
        (s ∈ act.daily_sessions ∨ s = now) ∧ hoursBetween now s ≤ 24) := by
  constructor
  · intro act ts hempty hspan
    have h := recordMany_sessions ts act (by rw [hempty]; simpa using hspan)
    rw [hempty] at h
    simpa using h
  · exact record_activity_mem

/-- C4 witness: three calls at 0 s, 3600 s and 86400 s (a 24-hour span) leave
exactly those three entries. -/
theorem C4_witness :
    (ActivityData.defaultData 0).daily_sessions = [] ∧
    (recordMany (ActivityData.defaultData 0) [0, 3600, 86400]).daily_sessions =
      [0, 3600, 86400] :=
  ⟨rfl,
    C4_prune_characterization.1 (ActivityData.defaultData 0) [0, 3600, 86400] rfl
      (by decide)⟩

/-- C5: with the default config (enabled, hours 8-22, max 2), last activity 13
hours ago, local time 14:00, counter 0 stamped today, the tick decides to
notify and the counter becomes 1; and in general any tick that passes the
enabled, active-hours and quota guards notifies exactly when the whole hours
of inactivity reach the fixed 12-hour threshold, incrementing the counter
by 1. -/
theorem C5_inactivity_threshold :
    (schedulerTick NotificationConfig.defaultConfig actStale13h 50400 =
      ({ actStale13h with notifications_sent_today := 1 }, true)) ∧
    (∀ (cfg : NotificationConfig) (act : ActivityData) (now : Nat),
      cfg.enabled = true → inActiveHours cfg now = true →
      (afterRollover act now).notifications_sent_today < cfg.max_reminders_per_day →
      (((schedulerTick cfg act now).2 = true ↔
          12 ≤ hoursBetween now act.last_activity) ∧
        ((schedulerTick cfg act now).2 = true →
          (schedulerTick cfg act now).1.notifications_sent_today =
            (afterRollover act now).notifications_sent_today + 1))) :=
  ⟨by decide, fun cfg act now h1 h2 h3 => tick_notifies_iff cfg act now h1 h2 h3⟩

/-- C5 witness: the general clause applied to the scenario itself (13 whole
hours of inactivity, all guards satisfied). -/
theorem C5_witness :
    NotificationConfig.defaultConfig.enabled = true ∧
    inActiveHours NotificationConfig.defaultConfig 50400 = true ∧
    (afterRollover actStale13h 50400).notifications_sent_today <
      NotificationConfig.defaultConfig.max_reminders_per_day ∧
    ((schedulerTick NotificationConfig.defaultConfig actStale13h 50400).2 = true ↔
      12 ≤ hoursBetween 50400 actStale13h.last_activity) :=
  ⟨rfl, by decide, by decide,
    (C5_inactivity_threshold.2 NotificationConfig.defaultConfig actStale13h 50400 rfl
      (by decide) (by decide)).1⟩

/-- C6: with `enabled = false` a tick never decides to notify and returns the
activity record unchanged, for every activity state and every time. -/
theorem C6_disabled_never_notifies (cfg : NotificationConfig) (act : ActivityData)
    (now : Nat) (h : cfg.enabled = false) :
    schedulerTick cfg act now = (act, false) := by
  simp [schedulerTick, h]

/-- C6 witness: the default config with the master switch off, at day 0,
14:00, on the default activity record. -/
theorem C6_witness :
    cfgDisabled.enabled = false ∧
    schedulerTick cfgDisabled (ActivityData.defaultData 0) 50400 =
      (ActivityData.defaultData 0, false) :=
  ⟨rfl, C6_disabled_never_notifies cfgDisabled (ActivityData.defaultData 0) 50400 rfl⟩

/-- C7 counterexample: when persistence fails (`persistOk = false`) the
command still answers `Ok(())` — the failure is discarded by
`let _ = self.save_config_to_file(..)` and never surfaced — while the
in-memory config has been replaced (and the stored document kept its old
value). -/
theorem C7_counterexample :
    (update_notification_config (some stMidDay) cfgDisabled false).2 = Except.ok () ∧
    (update_notification_config (some stMidDay) cfgDisabled false).1 =
      some { stMidDay with config := cfgDisabled } := by
  constructor <;> rfl

/-- C7 (amended): the in-memory Configuration Store is replaced
unconditionally, but a persistence failure is not surfaced: the command
returns `Ok(())` whenever the service is initialized, regardless of
`persistOk`; the only error result is the uninitialized-service error. -/
theorem C7_update_config_semantics :
    (∀ (st : ServiceState) (cfg : NotificationConfig) (persistOk : Bool),
      (update_config st cfg persistOk).config = cfg) ∧
    (∀ (st : ServiceState) (cfg : NotificationConfig) (persistOk : Bool),
      (update_notification_config (some st) cfg persistOk).2 = Except.ok ()) ∧
    (∀ (cfg : NotificationConfig) (persistOk : Bool),
      (update_notification_config none cfg persistOk).2 =
        Except.error "Background notification service not initialized") :=
  ⟨fun _ _ _ => rfl, fun _ _ _ => rfl, fun _ _ => rfl⟩

/-- C8: serializing a `NotificationConfig` or an `ActivityData` and
deserializing it back is the identity, including the habit-completions
mapping and the nested `streak_protection_hours` list. -/
theorem C8_persistence_roundtrip :
    (∀ c : NotificationConfig,
      NotificationConfig.fromJson (NotificationConfig.toJson c) = some c) ∧
    (∀ a : ActivityData, ActivityData.fromJson (ActivityData.toJson a) = some a) :=
  ⟨config_roundtrip, activity_roundtrip⟩

/-- C9: the enhanced service's reminder decision is positive exactly when the
local hour is 18 and the local minute is below 5; in particular it is negative
for every hour outside [8, 22] (none of which is 18), and by construction the
function depends on the current time only, not on any activity state. -/
theorem C9_streak_reminder_iff (now : Nat) :
    should_send_streak_protection_reminder now = true ↔
      hourOf now = 18 ∧ minuteOf now < 5 := by
  unfold should_send_streak_protection_reminder
  by_cases h1 : hourOf now < 8 ∨ 22 < hourOf now
  · rw [if_pos h1]
    simp
    intro h18
    omega
  · rw [if_neg h1]
    by_cases h2 : hourOf now = 18 ∧ minuteOf now < 5
    · simp [h2]
    · simp [h2]

/-- C10: `record_habit_completion` changes only the completion entry of the
given habit: `last_activity`, `daily_sessions`, `notifications_sent_today`,
`last_notification_date` and every other habit's entry are unchanged, so a
habit completion does not count as activity for the inactivity computation. -/
theorem C10_habit_completion_frame (act : ActivityData) (habit_id : String) (now : Nat) :
    (record_habit_completion act habit_id now).last_activity = act.last_activity ∧
    (record_habit_completion act habit_id now).daily_sessions = act.daily_sessions ∧
    (record_habit_completion act habit_id now).notifications_sent_today =
      act.notifications_sent_today ∧
    (record_habit_completion act habit_id now).last_notification_date =
      act.last_notification_date ∧
    hmLookup (record_habit_completion act habit_id now).habit_completions habit_id =
      some now ∧
    (∀ k, k ≠ habit_id →
      hmLookup (record_habit_completion act habit_id now).habit_completions k =
        hmLookup act.habit_completions k) :=
  ⟨rfl, rfl, rfl, rfl, hmLookup_insert_self act.habit_completions habit_id now,
    fun k hk => hmLookup_insert_ne act.habit_completions habit_id now k hk⟩

/-- C10 witness: completing "run" at time 99 leaves the "water" entry at 100
and sets the "run" entry to 99. -/
theorem C10_witness :
    ("water" : String) ≠ "run" ∧
    hmLookup (record_habit_completion actHC "run" 99).habit_completions "water" =
      hmLookup actHC.habit_completions "water" ∧
    hmLookup (record_habit_completion actHC "run" 99).habit_completions "run" =
      some 99 :=
  ⟨by decide, (C10_habit_completion_frame actHC "run" 99).2.2.2.2.2 "water" (by decide),
    (C10_habit_completion_frame actHC "run" 99).2.2.2.2.1⟩
